import Mathlib

/-!
Verification development for the YouB Telegram YouTube bot.

The repository holds two near-identical revisions of one program:
`src/index.js` (modelled below in namespace `IndexJs`) and
`src/unnamed/part_000`, the revision whose comments mark it as the fixed one
(modelled in namespace `Part000`).  Every definition is a shallow embedding of
the corresponding JavaScript: pure expressions become Lean functions, the
stateful request handler becomes explicit state passing over an `Out` record,
and the outcomes of the external collaborators (URL validator, metadata fetch,
media transfer, Telegram sends) are supplied by an `Env` record, one field per
external call site.
-/

namespace YouB

/-- A JavaScript number as it occurs in this pipeline: either an actual
(rational) value or NaN, the result of converting a non-numeric string. -/
inductive JSNum where
  | num (q : ℚ)
  | nan
deriving DecidableEq, Repr

/-- The JavaScript comparison `d <= c` on a number that may be NaN:
any comparison against NaN yields false. -/
def jsLe : JSNum → ℚ → Bool
  | JSNum.num q, c => decide (q ≤ c)
  | JSNum.nan, _ => false

/-- Whitespace trimming on both ends, as the JavaScript `String.prototype.trim`
performed by `Number(string)` before parsing. -/
def trimWs (l : List Char) : List Char :=
  ((l.dropWhile Char.isWhitespace).reverse.dropWhile Char.isWhitespace).reverse

/-- Whether every character of the list is a decimal digit. -/
def allDigits (l : List Char) : Bool :=
  l.all Char.isDigit

/-- The natural number denoted by a list of decimal digits. -/
def digitsVal (l : List Char) : ℕ :=
  l.foldl (fun a c => 10 * a + (c.toNat - 48)) 0

/-- Split a character list at every dot, as `"1.5"` splits into integer and
fractional parts. -/
def splitDot : List Char → List (List Char)
  | [] => [[]]
  | c :: cs =>
    if c = '.' then [] :: splitDot cs
    else
      match splitDot cs with
      | [] => [[c]]
      | w :: ws => (c :: w) :: ws

/-- Model of the JavaScript `Number(string)` conversion as it applies to
`lengthSeconds` values (source: `Number(v.lengthSeconds)`): surrounding
whitespace is trimmed, the empty string converts to 0, an optional sign
followed by decimal digits with an optional fractional part converts to the
denoted rational, and every other string — the non-numeric case — converts to
NaN.  Hexadecimal, exponent and Infinity forms never occur for `lengthSeconds`
and are outside the modelled domain. -/
def jsNumber (s : String) : JSNum :=
  let t := trimWs s.data
  if t.isEmpty then JSNum.num 0
  else
    let body :=
      match t with
      | '-' :: rest => rest
      | '+' :: rest => rest
      | _ => t
    let neg : Bool :=
      match t with
      | '-' :: _ => true
      | _ => false
    let mag : Option ℚ :=
      match splitDot body with
      | [w] =>
        if !w.isEmpty && allDigits w then some (digitsVal w) else Option.none
      | [w, f] =>
        if (!w.isEmpty || !f.isEmpty) && allDigits w && allDigits f then
          some ((digitsVal w : ℚ) + (digitsVal f : ℚ) / 10 ^ f.length)
        else Option.none
      | _ => Option.none
    match mag with
    | some q => JSNum.num (if neg then -q else q)
    | Option.none => JSNum.nan

/-- The JavaScript `title.slice(0, n)`: the first `n` characters of the
string (all of it when it is shorter). -/
def jsSlice (s : String) (n : ℕ) : String :=
  String.mk (s.data.take n)

/-- The JavaScript `s.padStart(n, c)`: pad `s` with `c` on the left up to
length `n`; a string already at least `n` long is returned unchanged. -/
def padStart (s : String) (n : ℕ) (c : Char) : String :=
  if n ≤ s.length then s else String.mk (List.replicate (n - s.length) c) ++ s

/-- The duration template from both revisions,
`Math.floor(duration / 60)` `:` `String(duration % 60).padStart(2, '0')`,
for an integer number of seconds. -/
def formatDuration (d : ℕ) : String :=
  toString (d / 60) ++ ":" ++ padStart (toString (d % 60)) 2 '0'

/-- The same duration template evaluated on a pipeline number.  `Math.floor`
and `%` propagate NaN and `String(NaN).padStart(2,'0')` is `"NaN"`, so NaN
renders as `"NaN:NaN"`.  Values are the durations the pipeline produces:
a nonnegative count of seconds or NaN. -/
def jsFormatDuration : JSNum → String
  | JSNum.num q => formatDuration (Int.floor q).toNat
  | JSNum.nan => "NaN:NaN"

/-- Spec-side description of two-digit zero padding, written from the spec
sentence "seconds zero-padded to exactly two digits". -/
def zeroPad2 (n : ℕ) : String :=
  if n < 10 then ("0") ++ toString n else toString n

/-- The JavaScript `x.toFixed(1)` for the nonnegative sizes this program
prints: round to the nearest tenth, ties upward, then print with one decimal
digit. -/
def toFixed1 (q : ℚ) : String :=
  let n := (Int.floor (q * 10 + 1 / 2)).toNat
  toString (n / 10) ++ "." ++ toString (n % 10)

/-- The two delivery strategies of the selector. -/
inductive Strategy where
  | stream
  | download
deriving DecidableEq, Repr

/-- The delivery-strategy selector, from the branch
`if (duration <= 120) streamVideo(...) else downloadVideo(...)`
present identically in both revisions. -/
def select (d : JSNum) : Strategy :=
  if jsLe d 120 then Strategy.stream else Strategy.download

/-- The expression `fs.statSync(filepath).size / (1024 * 1024)`: the measured size in MB.
The byte count is below 2^53 and the divisor is a power of two, so the
JavaScript double division is exact and a rational models it faithfully. -/
def sizeMB (sizeBytes : ℕ) : ℚ :=
  (sizeBytes : ℚ) / (1024 * 1024)

/-- The oversize test `sizeMB > 48` from both revisions. -/
def tooBig (sizeBytes : ℕ) : Bool :=
  decide (48 < sizeMB sizeBytes)

/-- The metadata the extraction service returns for a video:
`info.videoDetails.title` and `info.videoDetails.lengthSeconds`
(the latter arrives as a string and is converted with `Number`). -/
structure Meta where
  title : String
  lengthSeconds : String
deriving DecidableEq, Repr

/-- Outcomes of the external collaborators for one request, one field per
external call site: the URL validator, the metadata fetch (`none` means
`getInfo` rejected, with `infoErrMsg` as its error message), the
stream-to-Telegram send, the download transfer (`false` means the source
stream or the file sink errored, with `transferErrMsg`), the measured size of
the completed file, and the file upload. -/
structure Env where
  urlValid : Bool
  info : Option Meta
  infoErrMsg : String
  streamSendOk : Bool
  streamErrMsg : String
  transferOk : Bool
  transferErrMsg : String
  sizeBytes : ℕ
  uploadOk : Bool
  uploadErrMsg : String
deriving DecidableEq, Repr

/-- The state of the per-request status message: not yet created, visible
with some text, or deleted. -/
inductive StatusSt where
  | missing
  | visible (text : String)
  | deleted
deriving DecidableEq, Repr

/-- Observable events of one request: the metadata fetch, the invocation of a
delivery routine with its arguments, and the upload of the downloaded file. -/
inductive Ev where
  | getInfo (url : String)
  | streamAttempt (url title : String) (dur : JSNum)
  | downloadAttempt (url title : String) (dur : JSNum)
  | uploadFile (title : String)
deriving DecidableEq, Repr

/-- The title carried by an event, when it carries one. -/
def Ev.titleOf : Ev → Option String
  | Ev.getInfo _ => Option.none
  | Ev.streamAttempt _ t _ => some t
  | Ev.downloadAttempt _ t _ => some t
  | Ev.uploadFile t => some t

/-- Whether an event is a streaming-delivery invocation. -/
def isStream : Ev → Bool
  | Ev.streamAttempt _ _ _ => true
  | _ => false

/-- Whether an event is a download-delivery invocation. -/
def isDl : Ev → Bool
  | Ev.downloadAttempt _ _ _ => true
  | _ => false

/-- Whether an event is a file upload. -/
def isUpload : Ev → Bool
  | Ev.uploadFile _ => true
  | _ => false

/-- The externally observable state of one request: the event trace, how many
status messages were created, the status message state, how many temp files
were created, how many `unlinkSync` calls ran, whether a temp file is still on
disk, and the plain replies sent with `ctx.reply`. -/
structure Out where
  events : List Ev
  statusCreated : ℕ
  status : StatusSt
  tempCreated : ℕ
  unlinks : ℕ
  fileOnDisk : Bool
  replies : List String
deriving DecidableEq, Repr

/-- The state at the start of a request: nothing has happened yet. -/
def Out.init : Out :=
  { events := [], statusCreated := 0, status := StatusSt.missing,
    tempCreated := 0, unlinks := 0, fileOnDisk := false, replies := [] }

/-- Record an event. -/
def Out.emit (o : Out) (e : Ev) : Out :=
  { o with events := o.events ++ [e] }

/-- The call `ctx.reply(t)`: send a plain message. -/
def Out.reply (o : Out) (t : String) : Out :=
  { o with replies := o.replies ++ [t] }

/-- The call `ctx.telegram.editMessageText(..., statusMsg.message_id, ..., t)`: editing
succeeds only while the status message is visible; editing a deleted or
never-created message is rejected by the transport. -/
def Out.editStatus (o : Out) (t : String) : Except String Out :=
  match o.status with
  | StatusSt.visible _ => Except.ok { o with status := StatusSt.visible t }
  | _ => Except.error ("message to edit not found")

/-- The call `ctx.deleteMessage(statusMsg.message_id)`: deleting succeeds only while
the status message is visible. -/
def Out.deleteStatus (o : Out) : Except String Out :=
  match o.status with
  | StatusSt.visible _ => Except.ok { o with status := StatusSt.deleted }
  | _ => Except.error ("message to delete not found")

/-- The delivery invocations in a trace, in order. -/
def attempts (o : Out) : List Ev :=
  o.events.filter (fun e => isStream e || isDl e)

/-- The message produced when `statusMsg` is the missing argument
`undefined` and the code reads `statusMsg.message_id`. -/
def typeErrorMsg : String := "Cannot read properties of undefined"

namespace IndexJs

/-- The reply text `⏳ Fetching video info...` (src/index.js line 38). -/
def fetchingText : String := "⏳ Fetching video info..."

/-- The reply text `❌ Invalid YouTube link` (src/index.js line 35). -/
def invalidText : String := "❌ Invalid YouTube link"

/-- The status text `🎥 title⏎⬇️ Downloading...` (src/index.js line 50). -/
def prepText (title : String) : String :=
  "🎥 " ++ title ++ "\n⬇️ Downloading..."

/-- The caption `🎥 title⏎⏱️ M:SS` used by both sends (src/index.js lines 81, 124). -/
def videoCaption (title : String) (d : JSNum) : String :=
  "🎥 " ++ title ++ "\n⏱️ " ++ jsFormatDuration d

/-- The status text `📦 Video too large (max 48MB)` (src/index.js line 117). -/
def tooLargeText : String := "📦 Video too large (max 48MB)"

/-- The reply text `✨ Streamed successfully!` (src/index.js line 87). -/
def streamOkReply : String := "✨ Streamed successfully!"

/-- The reply text `✅ Downloaded & sent successfully!` (src/index.js line 131). -/
def dlOkReply : String := "✅ Downloaded & sent successfully!"

/-- The status text `❌ Failed to process video` (src/index.js line 68). -/
def failText : String := "❌ Failed to process video"

/-- The function `downloadVideo(ctx, url, title, duration, statusMsg)` of src/index.js
lines 96-133.  The function has no try/catch of its own: it records the
invocation, creates the temp file, and either throws a transfer error (leaving
the file on disk), rejects an oversize file after unlinking it, throws an
upload error (again leaving the file), or unlinks the file, deletes the status
message and reports success.  Thrown errors are returned in the `Except` and
handled by the caller. -/
def downloadVideo (env : Env) (url title : String) (dur : JSNum) (o : Out) :
    Out × Except String Unit :=
  let o := o.emit (Ev.downloadAttempt url title dur)
  let o := { o with tempCreated := o.tempCreated + 1, fileOnDisk := true }
  if env.transferOk then
    if tooBig env.sizeBytes then
      let o := { o with unlinks := o.unlinks + 1, fileOnDisk := false }
      match o.editStatus tooLargeText with
      | Except.ok o => (o, Except.ok ())
      | Except.error e => (o, Except.error e)
    else
      let o := o.emit (Ev.uploadFile title)
      if env.uploadOk then
        let o := { o with unlinks := o.unlinks + 1, fileOnDisk := false }
        match o.deleteStatus with
        | Except.ok o => (o.reply dlOkReply, Except.ok ())
        | Except.error e => (o, Except.error e)
      else (o, Except.error env.uploadErrMsg)
  else (o, Except.error env.transferErrMsg)

/-- The try block of `streamVideo` (src/index.js lines 74-88): open the
stream, send it as video, then delete the status message and reply. -/
def streamBody (env : Env) (url title : String) (dur : JSNum) (o : Out) :
    Out × Except String Unit :=
  let o := o.emit (Ev.streamAttempt url title dur)
  if env.streamSendOk then
    match o.deleteStatus with
    | Except.ok o => (o.reply streamOkReply, Except.ok ())
    | Except.error e => (o, Except.error e)
  else (o, Except.error env.streamErrMsg)

/-- The function `streamVideo(ctx, url, title, duration, statusMsg)` of src/index.js lines
73-94: on any failure of the try block the catch logs the error and falls
back to `downloadVideo` with the same arguments, status message included. -/
def streamVideo (env : Env) (url title : String) (dur : JSNum) (o : Out) :
    Out × Except String Unit :=
  match streamBody env url title dur o with
  | (o, Except.ok ()) => (o, Except.ok ())
  | (o, Except.error _) => downloadVideo env url title dur o

/-- The catch of the `text-message` try block (src/index.js lines 62-69):
a resolved request is returned as is; a thrown error makes the handler edit
the status message to the fixed failure text (an edit that is itself rejected
when the message was already deleted, leaving the state unchanged). -/
def finalize : Out × Except String Unit → Out
  | (o, Except.ok ()) => o
  | (o, Except.error _) =>
    match o.editStatus failText with
    | Except.ok o => o
    | Except.error _ => o

/-- The `text-message` handler of src/index.js lines 31-70: validate the
URL locally, create the status message, fetch metadata, truncate the title
with `slice(0, 50)`, convert the duration with `Number`, edit the status, and
dispatch on the selector; any error thrown inside the try block is caught by
`finalize`. -/
def onText (env : Env) (url : String) : Out :=
  if env.urlValid then
    let o := { Out.init with statusCreated := 1, status := StatusSt.visible fetchingText }
    finalize
      (match env.info with
      | Option.none => (o.emit (Ev.getInfo url), Except.error env.infoErrMsg)
      | some m =>
        let o := o.emit (Ev.getInfo url)
        let title := jsSlice m.title 50
        let dur := jsNumber m.lengthSeconds
        match o.editStatus (prepText title) with
        | Except.error e => (o, Except.error e)
        | Except.ok o =>
          match select dur with
          | Strategy.stream => streamVideo env url title dur o
          | Strategy.download => downloadVideo env url title dur o)
  else
    Out.init.reply invalidText

end IndexJs

namespace Part000

/-- The reply text `⏳ Fetching video info...` (src/unnamed/part_000 line 38). -/
def fetchingText : String := "⏳ Fetching video info..."

/-- The invalid-link reply (src/unnamed/part_000 line 35). -/
def invalidText : String := "❌ Invalid YouTube link!\n\nSend a valid YouTube URL."

/-- The status text `🎥 title⏎⬇️ Preparing video... (M:SS)`
(src/unnamed/part_000 line 59). -/
def prepText (title : String) (d : JSNum) : String :=
  "🎥 " ++ title ++ "\n⬇️ Preparing video... (" ++ jsFormatDuration d ++ ")"

/-- The status text `🎥 title⏎📡 Streaming...` (src/unnamed/part_000 line 88). -/
def streamingText (title : String) : String :=
  "🎥 " ++ title ++ "\n📡 Streaming..."

/-- The stream caption (src/unnamed/part_000 line 106). -/
def streamCaption (title : String) (d : JSNum) : String :=
  "🎥 " ++ title ++ "\n⏱️ " ++ jsFormatDuration d ++ "\n✨ Streamed instantly!"

/-- The reply text `✨ Video streamed successfully!` (src/unnamed/part_000 line 113). -/
def streamOkReply : String := "✨ Video streamed successfully!"

/-- The status text `🎥 title⏎⬇️ Downloading...` (src/unnamed/part_000 line 131). -/
def dlStatusText (title : String) : String :=
  "🎥 " ++ title ++ "\n⬇️ Downloading..."

/-- The oversize status text with the measured size
(src/unnamed/part_000 line 166). -/
def tooLargeText (sizeBytes : ℕ) : String :=
  "📦 Video too large (" ++ toFixed1 (sizeMB sizeBytes) ++ "MB)\nMax: 48MB"

/-- The upload caption with the measured size (src/unnamed/part_000 line 177). -/
def dlCaption (title : String) (d : JSNum) (sizeBytes : ℕ) : String :=
  "🎥 " ++ title ++ "\n⏱️ " ++ jsFormatDuration d ++ "\n📥 "
    ++ toFixed1 (sizeMB sizeBytes) ++ "MB"

/-- The reply text `✅ Downloaded & sent successfully!` (src/unnamed/part_000 line 185). -/
def dlOkReply : String := "✅ Downloaded & sent successfully!"

/-- The download-failure status text with the error message in backticks
(src/unnamed/part_000 line 193). -/
def dlFailText (e : String) : String :=
  "❌ Download failed:\n`" ++ e ++ "`"

/-- The handler-failure status text with the error message
(src/unnamed/part_000 line 76). -/
def failText (e : String) : String :=
  "❌ Failed to process video:\n`" ++ e ++ "`\n\nTry another link!"

/-- The try block of `downloadVideo` (src/unnamed/part_000 lines 132-185).
`hasMsg` records whether the `statusMsg` argument was supplied; when it was
not (the fallback call site omits it), reading `statusMsg.message_id` throws
before the media stream is opened or any file is created.  Otherwise the
status is edited, the temp file is written, and the size gate, upload and
cleanup run as in the source; thrown errors are returned in the `Except`. -/
def dlBody (env : Env) (url title : String) (dur : JSNum) (hasMsg : Bool) (o : Out) :
    Out × Except String Unit :=
  if hasMsg then
    match o.editStatus (dlStatusText title) with
    | Except.error e => (o, Except.error e)
    | Except.ok o =>
      let o := { o with tempCreated := o.tempCreated + 1, fileOnDisk := true }
      if env.transferOk then
        if tooBig env.sizeBytes then
          let o := { o with unlinks := o.unlinks + 1, fileOnDisk := false }
          match o.editStatus (tooLargeText env.sizeBytes) with
          | Except.error e => (o, Except.error e)
          | Except.ok o => (o, Except.ok ())
        else
          let o := o.emit (Ev.uploadFile title)
          if env.uploadOk then
            let o := { o with unlinks := o.unlinks + 1, fileOnDisk := false }
            match o.deleteStatus with
            | Except.error e => (o, Except.error e)
            | Except.ok o => (o.reply dlOkReply, Except.ok ())
          else (o, Except.error env.uploadErrMsg)
      else (o, Except.error env.transferErrMsg)
  else (o, Except.error typeErrorMsg)

/-- The function `downloadVideo(ctx, url, title, duration, statusMsg)` of
src/unnamed/part_000 lines 122-197: the invocation is recorded, the try block
runs, and on any thrown error the catch unlinks the temp file if it exists and
edits the status message to the failure text — an edit that itself throws when
`statusMsg` is `undefined` or the message was already deleted. -/
def downloadVideo (env : Env) (url title : String) (dur : JSNum) (hasMsg : Bool) (o : Out) :
    Out × Except String Unit :=
  let o := o.emit (Ev.downloadAttempt url title dur)
  match dlBody env url title dur hasMsg o with
  | (o, Except.ok ()) => (o, Except.ok ())
  | (o, Except.error e) =>
    let o := if o.fileOnDisk then { o with unlinks := o.unlinks + 1, fileOnDisk := false } else o
    if hasMsg then
      match o.editStatus (dlFailText e) with
      | Except.ok o => (o, Except.ok ())
      | Except.error e2 => (o, Except.error e2)
    else (o, Except.error typeErrorMsg)

/-- The try block of `streamVideo` (src/unnamed/part_000 lines 86-114):
edit the status to Streaming, open and send the stream, then delete the
status message and reply. -/
def streamBody (env : Env) (url title : String) (dur : JSNum) (o : Out) :
    Out × Except String Unit :=
  match o.editStatus (streamingText title) with
  | Except.error e => (o, Except.error e)
  | Except.ok o =>
    let o := o.emit (Ev.streamAttempt url title dur)
    if env.streamSendOk then
      match o.deleteStatus with
      | Except.error e => (o, Except.error e)
      | Except.ok o => (o.reply streamOkReply, Except.ok ())
    else (o, Except.error env.streamErrMsg)

/-- The function `streamVideo(ctx, url, title, duration, statusMsg)` of
src/unnamed/part_000 lines 85-120: on any failure of the try block the catch
logs the error, deletes the status message, and calls
`downloadVideo(ctx, url, title, duration)` — without the `statusMsg`
argument. -/
def streamVideo (env : Env) (url title : String) (dur : JSNum) (o : Out) :
    Out × Except String Unit :=
  match streamBody env url title dur o with
  | (o, Except.ok ()) => (o, Except.ok ())
  | (o, Except.error _) =>
    match o.deleteStatus with
    | Except.error e => (o, Except.error e)
    | Except.ok o => downloadVideo env url title dur false o

/-- The catch of the `text-message` try block (src/unnamed/part_000 lines
70-79): a resolved request is returned as is; a thrown error makes the
handler edit the status message to the failure text carrying the error
message (an edit that is itself rejected when the message was already
deleted, leaving the state unchanged). -/
def finalize : Out × Except String Unit → Out
  | (o, Except.ok ()) => o
  | (o, Except.error e) =>
    match o.editStatus (failText e) with
    | Except.ok o => o
    | Except.error _ => o

/-- The `text-message` handler of src/unnamed/part_000 lines 31-80:
validate the URL locally, create the status message, fetch metadata, truncate
the title with `slice(0, 50)`, convert the duration with `Number`, edit the
status to the preparing text, and dispatch on the selector; any error thrown
inside the try block is caught by `finalize`. -/
def onText (env : Env) (url : String) : Out :=
  if env.urlValid then
    let o := { Out.init with statusCreated := 1, status := StatusSt.visible fetchingText }
    finalize
      (match env.info with
      | Option.none => (o.emit (Ev.getInfo url), Except.error env.infoErrMsg)
      | some m =>
        let o := o.emit (Ev.getInfo url)
        let title := jsSlice m.title 50
        let dur := jsNumber m.lengthSeconds
        match o.editStatus (prepText title dur) with
        | Except.error e => (o, Except.error e)
        | Except.ok o =>
          match select dur with
          | Strategy.stream => streamVideo env url title dur o
          | Strategy.download => downloadVideo env url title dur true o)
  else
    Out.init.reply invalidText

end Part000

/-! Concrete requests used to exercise the models on explicit inputs. -/

/-- A concrete YouTube URL. -/
def urlEx : String := "https://youtu.be/dQw4w9WgXcQ"

/-- A 180-second video: the selector sends it down the Download path. -/
def metaLong : Meta := { title := "Documentary", lengthSeconds := "180" }

/-- A 60-second video: the selector sends it down the Stream path. -/
def metaShort : Meta := { title := "Cat clip", lengthSeconds := "60" }

/-- A fully successful environment for the long video: valid URL, metadata
resolves, the transfer completes at 10 MB, and both sends succeed. -/
def envBase : Env :=
  { urlValid := true, info := some metaLong, infoErrMsg := "info fetch failed",
    streamSendOk := true, streamErrMsg := "stream send failed",
    transferOk := true, transferErrMsg := "stream aborted mid-transfer",
    sizeBytes := 10 * 1024 * 1024, uploadOk := true, uploadErrMsg := "upload rejected" }

/-- The long video with a transfer that errors mid-write. -/
def envTransferFail : Env := { envBase with transferOk := false }

/-- The long video whose completed file is rejected by Telegram on upload. -/
def envUploadFail : Env := { envBase with uploadOk := false }

/-- The short video whose streaming send fails, forcing the fallback; the
fallback transfer then also errors. -/
def envStreamFail : Env :=
  { envBase with info := some metaShort, streamSendOk := false, transferOk := false }

/-- The short video streamed successfully. -/
def envStreamOk : Env := { envBase with info := some metaShort }

/-- The long video whose completed file measures 49 MB. -/
def env49 : Env := { envBase with sizeBytes := 49 * 1024 * 1024 }

/-- The long video whose completed file measures 99 MB. -/
def env99 : Env := { envBase with sizeBytes := 99 * 1024 * 1024 }

/-- The long video whose completed file measures 47 MB. -/
def env47 : Env := { envBase with sizeBytes := 47 * 1024 * 1024 }

/-- The long video whose completed file measures exactly 48 MB. -/
def env48 : Env := { envBase with sizeBytes := 48 * 1024 * 1024 }

/-- A message that is not a YouTube link: the validator rejects it. -/
def envInvalid : Env := { envBase with urlValid := false }

/-- A short video whose 55-character title must be truncated for display. -/
def metaLongTitle : Meta :=
  { title := "An exhaustive fifty-six character video title goes here", lengthSeconds := "60" }

/-- The long-titled short video, streamed successfully. -/
def envLongTitle : Env := { envBase with info := some metaLongTitle }

/-- The request state after URL validation, status creation, metadata fetch
and the preparing edit, just before the delivery dispatch: one status message
visible with text `t`, one recorded metadata call, nothing else. -/
def prepState (url t : String) : Out :=
  { events := [Ev.getInfo url], statusCreated := 1, status := StatusSt.visible t,
    tempCreated := 0, unlinks := 0, fileOnDisk := false, replies := [] }

/-! Helper lemmas. -/

/-- The oversize gate `sizeBytes / (1024 * 1024) > 48` on exact rationals is
the integer comparison `sizeBytes > 48 * 1024 * 1024`. -/
theorem tooBig_eq (s : ℕ) : tooBig s = decide (48 * 1024 * 1024 < s) := by
  rw [tooBig, decide_eq_decide, sizeMB, lt_div_iff₀ (by norm_num)]
  constructor <;> intro h <;> exact_mod_cast h

/-- The function `downloadVideo` of src/index.js records exactly one delivery invocation —
its own — on every branch. -/
theorem v0_dl_attempts (env : Env) (u t : String) (d : JSNum) (o : Out) :
    attempts (IndexJs.downloadVideo env u t d o).1
      = attempts o ++ [Ev.downloadAttempt u t d] := by
  rcases o with ⟨ev, sc, st, tc, ul, fd, rp⟩
  cases st <;> cases htr : env.transferOk <;> cases hbig : tooBig env.sizeBytes <;>
      cases hup : env.uploadOk <;>
    simp [IndexJs.downloadVideo, Out.emit, Out.reply, Out.editStatus, Out.deleteStatus,
      attempts, List.filter_append, isStream, isDl, htr, hbig, hup]

/-- The function `downloadVideo` of src/unnamed/part_000 records exactly one delivery
invocation — its own — on every branch, with or without the status-message
argument. -/
theorem v1_dl_attempts (env : Env) (u t : String) (d : JSNum) (hm : Bool) (o : Out) :
    attempts (Part000.downloadVideo env u t d hm o).1
      = attempts o ++ [Ev.downloadAttempt u t d] := by
  rcases o with ⟨ev, sc, st, tc, ul, fd, rp⟩
  cases hm <;> cases st <;> cases htr : env.transferOk <;> cases hbig : tooBig env.sizeBytes <;>
      cases hup : env.uploadOk <;> cases fd <;>
    simp [Part000.downloadVideo, Part000.dlBody, Out.emit, Out.reply, Out.editStatus,
      Out.deleteStatus, attempts, List.filter_append, isStream, isDl, htr, hbig, hup]

/-- The src/index.js catch only edits the status message: the event trace is
unchanged. -/
theorem v0_finalize_events (r : Out × Except String Unit) :
    (IndexJs.finalize r).events = r.1.events := by
  rcases r with ⟨o, res⟩
  rcases o with ⟨ev, sc, st, tc, ul, fd, rp⟩
  cases res with
  | ok u => cases u; rfl
  | error e => cases st <;> simp [IndexJs.finalize, Out.editStatus]

/-- The src/unnamed/part_000 catch only edits the status message: the event
trace is unchanged. -/
theorem v1_finalize_events (r : Out × Except String Unit) :
    (Part000.finalize r).events = r.1.events := by
  rcases r with ⟨o, res⟩
  rcases o with ⟨ev, sc, st, tc, ul, fd, rp⟩
  cases res with
  | ok u => cases u; rfl
  | error e => cases st <;> simp [Part000.finalize, Out.editStatus]

/-- Delivery invocations are unchanged by the src/index.js catch. -/
theorem v0_finalize_attempts (r : Out × Except String Unit) :
    attempts (IndexJs.finalize r) = attempts r.1 := by
  simp [attempts, v0_finalize_events]

/-- Delivery invocations are unchanged by the src/unnamed/part_000 catch. -/
theorem v1_finalize_attempts (r : Out × Except String Unit) :
    attempts (Part000.finalize r) = attempts r.1 := by
  simp [attempts, v1_finalize_events]

/-- With a valid URL and resolved metadata, the src/index.js handler is the
dispatched delivery wrapped in its catch, started from the prepared state. -/
theorem v0_onText_dispatch (env : Env) (url : String) (m : Meta)
    (hv : env.urlValid = true) (hi : env.info = some m) :
    IndexJs.onText env url
      = IndexJs.finalize
          (match select (jsNumber m.lengthSeconds) with
           | Strategy.stream =>
             IndexJs.streamVideo env url (jsSlice m.title 50) (jsNumber m.lengthSeconds)
               (prepState url (IndexJs.prepText (jsSlice m.title 50)))
           | Strategy.download =>
             IndexJs.downloadVideo env url (jsSlice m.title 50) (jsNumber m.lengthSeconds)
               (prepState url (IndexJs.prepText (jsSlice m.title 50)))) := by
  simp [IndexJs.onText, hv, hi, Out.editStatus, Out.emit, Out.init, prepState]

/-- With a valid URL and resolved metadata, the src/unnamed/part_000 handler
is the dispatched delivery wrapped in its catch, started from the prepared
state. -/
theorem v1_onText_dispatch (env : Env) (url : String) (m : Meta)
    (hv : env.urlValid = true) (hi : env.info = some m) :
    Part000.onText env url
      = Part000.finalize
          (match select (jsNumber m.lengthSeconds) with
           | Strategy.stream =>
             Part000.streamVideo env url (jsSlice m.title 50) (jsNumber m.lengthSeconds)
               (prepState url
                 (Part000.prepText (jsSlice m.title 50) (jsNumber m.lengthSeconds)))
           | Strategy.download =>
             Part000.downloadVideo env url (jsSlice m.title 50) (jsNumber m.lengthSeconds) true
               (prepState url
                 (Part000.prepText (jsSlice m.title 50) (jsNumber m.lengthSeconds)))) := by
  simp [Part000.onText, hv, hi, Out.editStatus, Out.emit, Out.init, prepState]

/-- A failed stream send in src/index.js falls back to `downloadVideo` with
the same URL, title and duration, keeping the status message. -/
theorem v0_streamVideo_fail (env : Env) (u t : String) (d : JSNum) (o : Out)
    (h : env.streamSendOk = false) :
    IndexJs.streamVideo env u t d o
      = IndexJs.downloadVideo env u t d (o.emit (Ev.streamAttempt u t d)) := by
  simp [IndexJs.streamVideo, IndexJs.streamBody, h, Out.emit]

/-- A successful stream send in src/index.js deletes the status message and
replies. -/
theorem v0_streamVideo_ok (env : Env) (u t : String) (d : JSNum) (o : Out) (t0 : String)
    (h : env.streamSendOk = true) (hst : o.status = StatusSt.visible t0) :
    IndexJs.streamVideo env u t d o
      = ({ o with events := o.events ++ [Ev.streamAttempt u t d],
                  status := StatusSt.deleted,
                  replies := o.replies ++ [IndexJs.streamOkReply] }, Except.ok ()) := by
  rcases o with ⟨ev, sc, st, tc, ul, fd, rp⟩
  cases st <;>
    simp_all [IndexJs.streamVideo, IndexJs.streamBody, Out.emit, Out.reply, Out.deleteStatus, h]

/-- A failed stream send in src/unnamed/part_000 deletes the status message
and falls back to `downloadVideo` without the status-message argument. -/
theorem v1_streamVideo_fail (env : Env) (u t : String) (d : JSNum) (o : Out) (t0 : String)
    (h : env.streamSendOk = false) (hst : o.status = StatusSt.visible t0) :
    Part000.streamVideo env u t d o
      = Part000.downloadVideo env u t d false
          { o with events := o.events ++ [Ev.streamAttempt u t d],
                   status := StatusSt.deleted } := by
  rcases o with ⟨ev, sc, st, tc, ul, fd, rp⟩
  cases st <;>
    simp_all [Part000.streamVideo, Part000.streamBody, Out.emit, Out.editStatus,
      Out.deleteStatus, h]

/-- A successful stream send in src/unnamed/part_000 deletes the status
message and replies. -/
theorem v1_streamVideo_ok (env : Env) (u t : String) (d : JSNum) (o : Out) (t0 : String)
    (h : env.streamSendOk = true) (hst : o.status = StatusSt.visible t0) :
    Part000.streamVideo env u t d o
      = ({ o with events := o.events ++ [Ev.streamAttempt u t d],
                  status := StatusSt.deleted,
                  replies := o.replies ++ [Part000.streamOkReply] }, Except.ok ()) := by
  rcases o with ⟨ev, sc, st, tc, ul, fd, rp⟩
  cases st <;>
    simp_all [Part000.streamVideo, Part000.streamBody, Out.emit, Out.reply, Out.editStatus,
      Out.deleteStatus, h]

/-- The function `downloadVideo` of src/index.js only reads the transfer, size and upload
fields of the environment; two environments agreeing there yield the same
result. -/
theorem v0_dl_env_ext (env env2 : Env) (u t : String) (d : JSNum) (o : Out)
    (h1 : env2.transferOk = env.transferOk) (h2 : env2.sizeBytes = env.sizeBytes)
    (h3 : env2.uploadOk = env.uploadOk) (h4 : env2.uploadErrMsg = env.uploadErrMsg)
    (h5 : env2.transferErrMsg = env.transferErrMsg) :
    IndexJs.downloadVideo env2 u t d o = IndexJs.downloadVideo env u t d o := by
  unfold IndexJs.downloadVideo
  rw [h1, h2, h3, h4, h5]

/-- The function `downloadVideo` of src/unnamed/part_000 only reads the transfer, size and
upload fields of the environment. -/
theorem v1_dl_env_ext (env env2 : Env) (u t : String) (d : JSNum) (hm : Bool) (o : Out)
    (h1 : env2.transferOk = env.transferOk) (h2 : env2.sizeBytes = env.sizeBytes)
    (h3 : env2.uploadOk = env.uploadOk) (h4 : env2.uploadErrMsg = env.uploadErrMsg)
    (h5 : env2.transferErrMsg = env.transferErrMsg) :
    Part000.downloadVideo env2 u t d hm o = Part000.downloadVideo env u t d hm o := by
  unfold Part000.downloadVideo Part000.dlBody
  rw [h1, h2, h3, h4, h5]

/-- The function `streamVideo` of src/index.js only reads the send and download fields of
the environment — in particular never the streaming error message, which it
swallows. -/
theorem v0_stream_env_ext (env env2 : Env) (u t : String) (d : JSNum) (o : Out)
    (hs : env2.streamSendOk = env.streamSendOk)
    (h1 : env2.transferOk = env.transferOk) (h2 : env2.sizeBytes = env.sizeBytes)
    (h3 : env2.uploadOk = env.uploadOk) (h4 : env2.uploadErrMsg = env.uploadErrMsg)
    (h5 : env2.transferErrMsg = env.transferErrMsg) :
    IndexJs.streamVideo env2 u t d o = IndexJs.streamVideo env u t d o := by
  have hdl : ∀ o2 : Out, IndexJs.downloadVideo env2 u t d o2 = IndexJs.downloadVideo env u t d o2 :=
    fun o2 => v0_dl_env_ext env env2 u t d o2 h1 h2 h3 h4 h5
  rcases o with ⟨ev, sc, st, tc, ul, fd, rp⟩
  cases st <;> cases hss : env.streamSendOk <;>
    simp [IndexJs.streamVideo, IndexJs.streamBody, hs, hss, hdl, Out.emit, Out.reply,
      Out.deleteStatus]

/-- The function `streamVideo` of src/unnamed/part_000 only reads the send and download
fields of the environment — in particular never the streaming error message,
which it swallows. -/
theorem v1_stream_env_ext (env env2 : Env) (u t : String) (d : JSNum) (o : Out)
    (hs : env2.streamSendOk = env.streamSendOk)
    (h1 : env2.transferOk = env.transferOk) (h2 : env2.sizeBytes = env.sizeBytes)
    (h3 : env2.uploadOk = env.uploadOk) (h4 : env2.uploadErrMsg = env.uploadErrMsg)
    (h5 : env2.transferErrMsg = env.transferErrMsg) :
    Part000.streamVideo env2 u t d o = Part000.streamVideo env u t d o := by
  have hdl : ∀ o2 : Out, Part000.downloadVideo env2 u t d false o2
      = Part000.downloadVideo env u t d false o2 :=
    fun o2 => v1_dl_env_ext env env2 u t d false o2 h1 h2 h3 h4 h5
  rcases o with ⟨ev, sc, st, tc, ul, fd, rp⟩
  cases st <;> cases hss : env.streamSendOk <;>
    simp [Part000.streamVideo, Part000.streamBody, hs, hss, hdl, Out.emit, Out.reply,
      Out.editStatus, Out.deleteStatus]

/-- The src/index.js request outcome only depends on the environment through
the URL verdict, the metadata, the info error and the send/transfer/upload
fields — never through the streaming error message. -/
theorem v0_onText_env_ext (env env2 : Env) (url : String)
    (hu : env2.urlValid = env.urlValid) (hinfo : env2.info = env.info)
    (hie : env2.infoErrMsg = env.infoErrMsg)
    (hs : env2.streamSendOk = env.streamSendOk)
    (h1 : env2.transferOk = env.transferOk) (h2 : env2.sizeBytes = env.sizeBytes)
    (h3 : env2.uploadOk = env.uploadOk) (h4 : env2.uploadErrMsg = env.uploadErrMsg)
    (h5 : env2.transferErrMsg = env.transferErrMsg) :
    IndexJs.onText env2 url = IndexJs.onText env url := by
  have hstr : ∀ (u t : String) (dd : JSNum) (o : Out),
      IndexJs.streamVideo env2 u t dd o = IndexJs.streamVideo env u t dd o :=
    fun u t dd o => v0_stream_env_ext env env2 u t dd o hs h1 h2 h3 h4 h5
  have hdl : ∀ (u t : String) (dd : JSNum) (o : Out),
      IndexJs.downloadVideo env2 u t dd o = IndexJs.downloadVideo env u t dd o :=
    fun u t dd o => v0_dl_env_ext env env2 u t dd o h1 h2 h3 h4 h5
  unfold IndexJs.onText
  rw [hu, hinfo, hie]
  cases hv : env.urlValid
  · simp
  · cases hi : env.info with
    | none => simp
    | some m =>
      cases hsel : select (jsNumber m.lengthSeconds) <;>
        simp [hsel, hstr, hdl, Out.emit, Out.editStatus]

/-- The src/unnamed/part_000 request outcome only depends on the environment
through the URL verdict, the metadata, the info error and the
send/transfer/upload fields — never through the streaming error message. -/
theorem v1_onText_env_ext (env env2 : Env) (url : String)
    (hu : env2.urlValid = env.urlValid) (hinfo : env2.info = env.info)
    (hie : env2.infoErrMsg = env.infoErrMsg)
    (hs : env2.streamSendOk = env.streamSendOk)
    (h1 : env2.transferOk = env.transferOk) (h2 : env2.sizeBytes = env.sizeBytes)
    (h3 : env2.uploadOk = env.uploadOk) (h4 : env2.uploadErrMsg = env.uploadErrMsg)
    (h5 : env2.transferErrMsg = env.transferErrMsg) :
    Part000.onText env2 url = Part000.onText env url := by
  have hstr : ∀ (u t : String) (dd : JSNum) (o : Out),
      Part000.streamVideo env2 u t dd o = Part000.streamVideo env u t dd o :=
    fun u t dd o => v1_stream_env_ext env env2 u t dd o hs h1 h2 h3 h4 h5
  have hdl : ∀ (u t : String) (dd : JSNum) (hm : Bool) (o : Out),
      Part000.downloadVideo env2 u t dd hm o = Part000.downloadVideo env u t dd hm o :=
    fun u t dd hm o => v1_dl_env_ext env env2 u t dd hm o h1 h2 h3 h4 h5
  unfold Part000.onText
  rw [hu, hinfo, hie]
  cases hv : env.urlValid
  · simp
  · cases hi : env.info with
    | none => simp
    | some m =>
      cases hsel : select (jsNumber m.lengthSeconds) <;>
        simp [hsel, hstr, hdl, Out.emit, Out.editStatus]

/-- Truncating a truncated title is the identity. -/
theorem jsSlice_idem (s : String) (n : ℕ) : jsSlice (jsSlice s n) n = jsSlice s n := by
  simp [jsSlice, List.take_take]

/-- The src/index.js request outcome only depends on the first 50 characters
of the resolved title: replacing the title with its 50-character prefix
changes nothing. -/
theorem v0_onText_title_trunc (env env2 : Env) (url : String) (m : Meta)
    (hm : env.info = some m)
    (hm2 : env2.info = some { m with title := jsSlice m.title 50 })
    (hu : env2.urlValid = env.urlValid) (hie : env2.infoErrMsg = env.infoErrMsg)
    (hs : env2.streamSendOk = env.streamSendOk)
    (h1 : env2.transferOk = env.transferOk) (h2 : env2.sizeBytes = env.sizeBytes)
    (h3 : env2.uploadOk = env.uploadOk) (h4 : env2.uploadErrMsg = env.uploadErrMsg)
    (h5 : env2.transferErrMsg = env.transferErrMsg) :
    IndexJs.onText env2 url = IndexJs.onText env url := by
  have hstr : ∀ (u t : String) (dd : JSNum) (o : Out),
      IndexJs.streamVideo env2 u t dd o = IndexJs.streamVideo env u t dd o :=
    fun u t dd o => v0_stream_env_ext env env2 u t dd o hs h1 h2 h3 h4 h5
  have hdl : ∀ (u t : String) (dd : JSNum) (o : Out),
      IndexJs.downloadVideo env2 u t dd o = IndexJs.downloadVideo env u t dd o :=
    fun u t dd o => v0_dl_env_ext env env2 u t dd o h1 h2 h3 h4 h5
  unfold IndexJs.onText
  rw [hu, hie, hm, hm2]
  cases hv : env.urlValid
  · simp
  · cases hsel : select (jsNumber m.lengthSeconds) <;>
      simp [hsel, hstr, hdl, jsSlice_idem, Out.emit, Out.editStatus]

/-- The src/unnamed/part_000 request outcome only depends on the first 50
characters of the resolved title: replacing the title with its 50-character
prefix changes nothing. -/
theorem v1_onText_title_trunc (env env2 : Env) (url : String) (m : Meta)
    (hm : env.info = some m)
    (hm2 : env2.info = some { m with title := jsSlice m.title 50 })
    (hu : env2.urlValid = env.urlValid) (hie : env2.infoErrMsg = env.infoErrMsg)
    (hs : env2.streamSendOk = env.streamSendOk)
    (h1 : env2.transferOk = env.transferOk) (h2 : env2.sizeBytes = env.sizeBytes)
    (h3 : env2.uploadOk = env.uploadOk) (h4 : env2.uploadErrMsg = env.uploadErrMsg)
    (h5 : env2.transferErrMsg = env.transferErrMsg) :
    Part000.onText env2 url = Part000.onText env url := by
  have hstr : ∀ (u t : String) (dd : JSNum) (o : Out),
      Part000.streamVideo env2 u t dd o = Part000.streamVideo env u t dd o :=
    fun u t dd o => v1_stream_env_ext env env2 u t dd o hs h1 h2 h3 h4 h5
  have hdl : ∀ (u t : String) (dd : JSNum) (hmb : Bool) (o : Out),
      Part000.downloadVideo env2 u t dd hmb o = Part000.downloadVideo env u t dd hmb o :=
    fun u t dd hmb o => v1_dl_env_ext env env2 u t dd hmb o h1 h2 h3 h4 h5
  unfold Part000.onText
  rw [hu, hie, hm, hm2]
  cases hv : env.urlValid
  · simp
  · cases hsel : select (jsNumber m.lengthSeconds) <;>
      simp [hsel, hstr, hdl, jsSlice_idem, Out.emit, Out.editStatus]

/-- src/index.js, long video, oversize file: the request ends with the temp
file unlinked once, no upload event, and the fixed too-large status text. -/
theorem v0_onText_oversize (env : Env) (url : String) (m : Meta)
    (hv : env.urlValid = true) (hi : env.info = some m)
    (hd : jsLe (jsNumber m.lengthSeconds) 120 = false)
    (htr : env.transferOk = true) (hbig : tooBig env.sizeBytes = true) :
    IndexJs.onText env url =
      { events := [Ev.getInfo url,
                   Ev.downloadAttempt url (jsSlice m.title 50) (jsNumber m.lengthSeconds)],
        statusCreated := 1, status := StatusSt.visible IndexJs.tooLargeText,
        tempCreated := 1, unlinks := 1, fileOnDisk := false, replies := [] } := by
  simp [IndexJs.onText, IndexJs.downloadVideo, IndexJs.finalize, select, hv, hi, hd, htr, hbig,
        Out.emit, Out.editStatus, Out.deleteStatus, Out.init, Out.reply]

/-- src/index.js, long video, file within the limit, upload succeeds: the
request ends with the file uploaded, unlinked once, the status message
deleted and a success reply. -/
theorem v0_onText_dl_ok (env : Env) (url : String) (m : Meta)
    (hv : env.urlValid = true) (hi : env.info = some m)
    (hd : jsLe (jsNumber m.lengthSeconds) 120 = false)
    (htr : env.transferOk = true) (hsmall : tooBig env.sizeBytes = false)
    (hup : env.uploadOk = true) :
    IndexJs.onText env url =
      { events := [Ev.getInfo url,
                   Ev.downloadAttempt url (jsSlice m.title 50) (jsNumber m.lengthSeconds),
                   Ev.uploadFile (jsSlice m.title 50)],
        statusCreated := 1, status := StatusSt.deleted,
        tempCreated := 1, unlinks := 1, fileOnDisk := false,
        replies := [IndexJs.dlOkReply] } := by
  simp [IndexJs.onText, IndexJs.downloadVideo, IndexJs.finalize, select, hv, hi, hd, htr, hsmall,
        hup, Out.emit, Out.editStatus, Out.deleteStatus, Out.init, Out.reply]

/-- src/index.js, long video, file within the limit, upload rejected: the
thrown error skips the unlink, so the request ends with the temp file still
on disk and the fixed failure status text. -/
theorem v0_onText_dl_uploadFail (env : Env) (url : String) (m : Meta)
    (hv : env.urlValid = true) (hi : env.info = some m)
    (hd : jsLe (jsNumber m.lengthSeconds) 120 = false)
    (htr : env.transferOk = true) (hsmall : tooBig env.sizeBytes = false)
    (hup : env.uploadOk = false) :
    IndexJs.onText env url =
      { events := [Ev.getInfo url,
                   Ev.downloadAttempt url (jsSlice m.title 50) (jsNumber m.lengthSeconds),
                   Ev.uploadFile (jsSlice m.title 50)],
        statusCreated := 1, status := StatusSt.visible IndexJs.failText,
        tempCreated := 1, unlinks := 0, fileOnDisk := true, replies := [] } := by
  simp [IndexJs.onText, IndexJs.downloadVideo, IndexJs.finalize, select, hv, hi, hd, htr, hsmall,
        hup, Out.emit, Out.editStatus, Out.deleteStatus, Out.init, Out.reply]

/-- src/unnamed/part_000, long video, oversize file: the request ends with
the temp file unlinked once, no upload event, and the too-large status text
carrying the measured size. -/
theorem v1_onText_oversize (env : Env) (url : String) (m : Meta)
    (hv : env.urlValid = true) (hi : env.info = some m)
    (hd : jsLe (jsNumber m.lengthSeconds) 120 = false)
    (htr : env.transferOk = true) (hbig : tooBig env.sizeBytes = true) :
    Part000.onText env url =
      { events := [Ev.getInfo url,
                   Ev.downloadAttempt url (jsSlice m.title 50) (jsNumber m.lengthSeconds)],
        statusCreated := 1, status := StatusSt.visible (Part000.tooLargeText env.sizeBytes),
        tempCreated := 1, unlinks := 1, fileOnDisk := false, replies := [] } := by
  simp [Part000.onText, Part000.downloadVideo, Part000.dlBody, Part000.finalize, select, hv, hi,
        hd, htr, hbig, Out.emit, Out.editStatus, Out.deleteStatus, Out.init, Out.reply]

/-- src/unnamed/part_000, long video, file within the limit, upload succeeds:
the request ends with the file uploaded, unlinked once, the status message
deleted and a success reply. -/
theorem v1_onText_dl_ok (env : Env) (url : String) (m : Meta)
    (hv : env.urlValid = true) (hi : env.info = some m)
    (hd : jsLe (jsNumber m.lengthSeconds) 120 = false)
    (htr : env.transferOk = true) (hsmall : tooBig env.sizeBytes = false)
    (hup : env.uploadOk = true) :
    Part000.onText env url =
      { events := [Ev.getInfo url,
                   Ev.downloadAttempt url (jsSlice m.title 50) (jsNumber m.lengthSeconds),
                   Ev.uploadFile (jsSlice m.title 50)],
        statusCreated := 1, status := StatusSt.deleted,
        tempCreated := 1, unlinks := 1, fileOnDisk := false,
        replies := [Part000.dlOkReply] } := by
  simp [Part000.onText, Part000.downloadVideo, Part000.dlBody, Part000.finalize, select, hv, hi,
        hd, htr, hsmall, hup, Out.emit, Out.editStatus, Out.deleteStatus, Out.init, Out.reply]

/-- src/unnamed/part_000, long video, file within the limit, upload rejected:
the catch unlinks the file and edits the status to the failure text carrying
the upload error. -/
theorem v1_onText_dl_uploadFail (env : Env) (url : String) (m : Meta)
    (hv : env.urlValid = true) (hi : env.info = some m)
    (hd : jsLe (jsNumber m.lengthSeconds) 120 = false)
    (htr : env.transferOk = true) (hsmall : tooBig env.sizeBytes = false)
    (hup : env.uploadOk = false) :
    Part000.onText env url =
      { events := [Ev.getInfo url,
                   Ev.downloadAttempt url (jsSlice m.title 50) (jsNumber m.lengthSeconds),
                   Ev.uploadFile (jsSlice m.title 50)],
        statusCreated := 1,
        status := StatusSt.visible (Part000.dlFailText env.uploadErrMsg),
        tempCreated := 1, unlinks := 1, fileOnDisk := false, replies := [] } := by
  simp [Part000.onText, Part000.downloadVideo, Part000.dlBody, Part000.finalize, select, hv, hi,
        hd, htr, hsmall, hup, Out.emit, Out.editStatus, Out.deleteStatus, Out.init, Out.reply]

/-! Claim theorems. -/

/-- Claim C2: for every integer duration `d ≥ 0` the delivery strategy
selector chooses the Stream path iff `d ≤ 120`, and the Download path
otherwise; in particular Stream is chosen at exactly 120 seconds and Download
at 121. -/
theorem select_stream_iff_le_120 (d : ℕ) :
    (select (JSNum.num d) = Strategy.stream ↔ d ≤ 120)
    ∧ (select (JSNum.num d) = Strategy.download ↔ ¬ d ≤ 120)
    ∧ select (JSNum.num 120) = Strategy.stream
    ∧ select (JSNum.num 121) = Strategy.download := by
  refine ⟨?_, ?_, by decide, by decide⟩ <;>
  · by_cases h : d ≤ 120
    · have hq : ((d : ℚ) ≤ 120) := by exact_mod_cast h
      simp [select, jsLe, hq, h]
    · have hq : ¬ ((d : ℚ) ≤ 120) := by exact_mod_cast h
      simp [select, jsLe, hq, h]

/-- Claim C8: for every non-negative integer duration the formatted duration
is the floored minute count, a colon, and the remaining seconds zero-padded
to exactly two digits. -/
theorem duration_formatted_m_ss (d : ℕ) :
    jsFormatDuration (JSNum.num d) = toString (d / 60) ++ ":" ++ zeroPad2 (d % 60)
    ∧ (zeroPad2 (d % 60)).length = 2 := by
  have key : ∀ m, m < 60 →
      (padStart (toString m) 2 '0' = zeroPad2 m ∧ (zeroPad2 m).length = 2) := by decide
  have h := key (d % 60) (Nat.mod_lt _ (by norm_num))
  refine ⟨?_, h.2⟩
  simp only [jsFormatDuration, Int.floor_natCast, Int.toNat_natCast, formatDuration, h.1]

/-- Claim C10: a `lengthSeconds` value that does not parse as a number
converts to NaN, the comparison `NaN <= 120` is false, and the selector takes
the Download path — its else branch is the default for any non-numeric
duration. -/
theorem nan_duration_selects_download (s : String) (h : jsNumber s = JSNum.nan) :
    jsLe (jsNumber s) 120 = false ∧ select (jsNumber s) = Strategy.download := by
  rw [h]
  exact ⟨rfl, rfl⟩

/-- Witness for C10 at the concrete non-numeric value `"unknown"`. -/
theorem nan_duration_selects_download_witness :
    jsNumber ("unknown") = JSNum.nan
    ∧ (jsLe (jsNumber ("unknown")) 120 = false
      ∧ select (jsNumber ("unknown")) = Strategy.download) :=
  ⟨by decide, nan_duration_selects_download ("unknown") (by decide)⟩

/-- Claim C6: a text message that fails local URL validation is answered with
the invalid-link reply, and the request makes no metadata call at all — the
event trace is empty and no status message is created. -/
theorem invalid_url_no_network (env : Env) (url : String) (h : env.urlValid = false) :
    IndexJs.onText env url = Out.init.reply IndexJs.invalidText
    ∧ Part000.onText env url = Out.init.reply Part000.invalidText
    ∧ (IndexJs.onText env url).events = []
    ∧ (Part000.onText env url).events = []
    ∧ (IndexJs.onText env url).replies = [IndexJs.invalidText]
    ∧ (Part000.onText env url).replies = [Part000.invalidText]
    ∧ (IndexJs.onText env url).statusCreated = 0
    ∧ (Part000.onText env url).statusCreated = 0 := by
  refine ⟨?_, ?_, ?_, ?_, ?_, ?_, ?_, ?_⟩ <;>
    simp [IndexJs.onText, Part000.onText, h, Out.reply, Out.init]

/-- Claim C9: the 48 MB ceiling is strict — the oversize test fires exactly
for sizes strictly greater than `48 * 1024 * 1024` bytes, and a file of
exactly 48 MB proceeds to upload in both revisions. -/
theorem size_ceiling_strict :
    tooBig (48 * 1024 * 1024) = false
    ∧ (∀ s : ℕ, tooBig s = true ↔ 48 * 1024 * 1024 < s)
    ∧ (IndexJs.onText env48 urlEx).events.filter isUpload
        = [Ev.uploadFile (jsSlice metaLong.title 50)]
    ∧ (Part000.onText env48 urlEx).events.filter isUpload
        = [Ev.uploadFile (jsSlice metaLong.title 50)]
    ∧ (IndexJs.onText env48 urlEx).status = StatusSt.deleted
    ∧ (Part000.onText env48 urlEx).status = StatusSt.deleted := by
  have h0 := v0_onText_dl_ok env48 urlEx metaLong rfl rfl (by decide) rfl
    (by rw [tooBig_eq]; decide) rfl
  have h1 := v1_onText_dl_ok env48 urlEx metaLong rfl rfl (by decide) rfl
    (by rw [tooBig_eq]; decide) rfl
  rw [h0, h1]
  refine ⟨by rw [tooBig_eq]; decide, fun s => ?_, by decide, by decide, rfl, rfl⟩
  rw [tooBig_eq]
  exact decide_eq_true_iff

/-- Claim C3 counterexample: in src/index.js the too-large status text shown
for a 49 MB file equals the one shown for a 99 MB file — a fixed constant
that does not carry the measured size. -/
theorem oversize_size_not_reported_indexjs :
    (IndexJs.onText env49 urlEx).status = (IndexJs.onText env99 urlEx).status
    ∧ (IndexJs.onText env49 urlEx).status = StatusSt.visible IndexJs.tooLargeText
    ∧ env49.sizeBytes ≠ env99.sizeBytes := by
  have h1 := v0_onText_oversize env49 urlEx metaLong rfl rfl (by decide) rfl
    (by rw [tooBig_eq]; decide)
  have h2 := v0_onText_oversize env99 urlEx metaLong rfl rfl (by decide) rfl
    (by rw [tooBig_eq]; decide)
  rw [h1, h2]
  exact ⟨rfl, rfl, by decide⟩

/-- Claim C3 (amended): after a complete write, a file measured over 48 MB is
deleted, no upload is attempted, and a too-large status is shown — carrying
the measured size in the fixed revision (part_000), while the older revision
(index.js) shows only the fixed 48 MB maximum; a 49 MB file is rejected and
removed in both revisions, and a 47 MB file proceeds to upload in both. -/
theorem oversize_rejected_without_upload (env : Env) (url : String) (m : Meta)
    (hv : env.urlValid = true) (hi : env.info = some m)
    (hd : jsLe (jsNumber m.lengthSeconds) 120 = false)
    (htr : env.transferOk = true) (hbig : tooBig env.sizeBytes = true) :
    ((IndexJs.onText env url).events.filter isUpload = []
      ∧ (IndexJs.onText env url).unlinks = 1
      ∧ (IndexJs.onText env url).fileOnDisk = false
      ∧ (IndexJs.onText env url).status = StatusSt.visible IndexJs.tooLargeText)
    ∧ ((Part000.onText env url).events.filter isUpload = []
      ∧ (Part000.onText env url).unlinks = 1
      ∧ (Part000.onText env url).fileOnDisk = false
      ∧ (Part000.onText env url).status
          = StatusSt.visible (Part000.tooLargeText env.sizeBytes))
    ∧ ((IndexJs.onText env47 urlEx).events.filter isUpload
          = [Ev.uploadFile (jsSlice metaLong.title 50)]
      ∧ (Part000.onText env47 urlEx).events.filter isUpload
          = [Ev.uploadFile (jsSlice metaLong.title 50)])
    ∧ ((IndexJs.onText env49 urlEx).events.filter isUpload = []
      ∧ (IndexJs.onText env49 urlEx).fileOnDisk = false
      ∧ (Part000.onText env49 urlEx).events.filter isUpload = []
      ∧ (Part000.onText env49 urlEx).fileOnDisk = false) := by
  have h0 := v0_onText_oversize env url m hv hi hd htr hbig
  have h1 := v1_onText_oversize env url m hv hi hd htr hbig
  have h47a := v0_onText_dl_ok env47 urlEx metaLong rfl rfl (by decide) rfl
    (by rw [tooBig_eq]; decide) rfl
  have h47b := v1_onText_dl_ok env47 urlEx metaLong rfl rfl (by decide) rfl
    (by rw [tooBig_eq]; decide) rfl
  have h49a := v0_onText_oversize env49 urlEx metaLong rfl rfl (by decide) rfl
    (by rw [tooBig_eq]; decide)
  have h49b := v1_onText_oversize env49 urlEx metaLong rfl rfl (by decide) rfl
    (by rw [tooBig_eq]; decide)
  rw [h0, h1, h47a, h47b, h49a, h49b]
  refine ⟨⟨?_, rfl, rfl, rfl⟩, ⟨?_, rfl, rfl, rfl⟩, ⟨by decide, by decide⟩,
    ⟨by decide, rfl, by decide, rfl⟩⟩ <;> simp [isUpload]

/-- Witness for C3 (amended) at the concrete 49 MB request. -/
theorem oversize_rejected_without_upload_witness :
    (env49.urlValid = true ∧ env49.info = some metaLong
      ∧ jsLe (jsNumber metaLong.lengthSeconds) 120 = false
      ∧ env49.transferOk = true ∧ tooBig env49.sizeBytes = true)
    ∧ (((IndexJs.onText env49 urlEx).events.filter isUpload = []
      ∧ (IndexJs.onText env49 urlEx).unlinks = 1
      ∧ (IndexJs.onText env49 urlEx).fileOnDisk = false
      ∧ (IndexJs.onText env49 urlEx).status = StatusSt.visible IndexJs.tooLargeText)
    ∧ ((Part000.onText env49 urlEx).events.filter isUpload = []
      ∧ (Part000.onText env49 urlEx).unlinks = 1
      ∧ (Part000.onText env49 urlEx).fileOnDisk = false
      ∧ (Part000.onText env49 urlEx).status
          = StatusSt.visible (Part000.tooLargeText env49.sizeBytes))
    ∧ ((IndexJs.onText env47 urlEx).events.filter isUpload
          = [Ev.uploadFile (jsSlice metaLong.title 50)]
      ∧ (Part000.onText env47 urlEx).events.filter isUpload
          = [Ev.uploadFile (jsSlice metaLong.title 50)])
    ∧ ((IndexJs.onText env49 urlEx).events.filter isUpload = []
      ∧ (IndexJs.onText env49 urlEx).fileOnDisk = false
      ∧ (Part000.onText env49 urlEx).events.filter isUpload = []
      ∧ (Part000.onText env49 urlEx).fileOnDisk = false)) :=
  ⟨⟨rfl, rfl, by decide, rfl, by rw [tooBig_eq]; decide⟩,
    oversize_rejected_without_upload env49 urlEx metaLong rfl rfl (by decide) rfl
      (by rw [tooBig_eq]; decide)⟩

/-- Claim C1 (code bug): in src/index.js a transfer error or an upload error
aborts `downloadVideo` before `fs.unlinkSync`, so the created temp file stays
on disk; src/unnamed/part_000 unlinks it in its catch.  Evaluated on the long
video with a failing transfer and with a rejected upload. -/
theorem temp_file_leak_on_error :
    ((IndexJs.onText envTransferFail urlEx).tempCreated = 1
      ∧ (IndexJs.onText envTransferFail urlEx).unlinks = 0
      ∧ (IndexJs.onText envTransferFail urlEx).fileOnDisk = true)
    ∧ ((IndexJs.onText envUploadFail urlEx).tempCreated = 1
      ∧ (IndexJs.onText envUploadFail urlEx).unlinks = 0
      ∧ (IndexJs.onText envUploadFail urlEx).fileOnDisk = true)
    ∧ ((Part000.onText envTransferFail urlEx).tempCreated = 1
      ∧ (Part000.onText envTransferFail urlEx).unlinks = 1
      ∧ (Part000.onText envTransferFail urlEx).fileOnDisk = false)
    ∧ ((Part000.onText envUploadFail urlEx).tempCreated = 1
      ∧ (Part000.onText envUploadFail urlEx).unlinks = 1
      ∧ (Part000.onText envUploadFail urlEx).fileOnDisk = false) := by
  have ha := v0_onText_dl_uploadFail envUploadFail urlEx metaLong rfl rfl (by decide) rfl
    (by rw [tooBig_eq]; decide) rfl
  have hb := v1_onText_dl_uploadFail envUploadFail urlEx metaLong rfl rfl (by decide) rfl
    (by rw [tooBig_eq]; decide) rfl
  rw [ha, hb]
  exact ⟨by decide, ⟨rfl, rfl, rfl⟩, by decide, ⟨rfl, rfl, rfl⟩⟩

/-- Claim C5 (code bug): in src/unnamed/part_000 a failed stream attempt
deletes the status message and then calls `downloadVideo` without the
`statusMsg` argument; the fallback crashes on `statusMsg.message_id`, the
final handler edit of the already-deleted message is rejected, and the request
ends failed with the status message deleted and no visible error — while
src/index.js ends the same scenario with the failure text visible. -/
theorem status_message_deleted_on_failure :
    ((Part000.onText envStreamFail urlEx).statusCreated = 1
      ∧ (Part000.onText envStreamFail urlEx).status = StatusSt.deleted
      ∧ (Part000.onText envStreamFail urlEx).replies = []
      ∧ (Part000.onText envStreamFail urlEx).events.filter isUpload = [])
    ∧ ((IndexJs.onText envStreamFail urlEx).statusCreated = 1
      ∧ (IndexJs.onText envStreamFail urlEx).status
          = StatusSt.visible IndexJs.failText) := by
  exact ⟨by decide, by decide⟩

/-- Claim C4: a failed stream attempt triggers exactly one download attempt
with the same URL, title and duration; a successful stream and a long-video
download each perform a single attempt, so at most one stream plus one
download attempt occur per request and a download never triggers a stream;
and the whole request outcome is independent of the streaming error message,
which is therefore never surfaced to the user. -/
theorem fallback_exactly_one_download (env : Env) (url : String) (m : Meta)
    (hv : env.urlValid = true) (hi : env.info = some m) :
    (jsLe (jsNumber m.lengthSeconds) 120 = true → env.streamSendOk = false →
      attempts (IndexJs.onText env url)
        = [Ev.streamAttempt url (jsSlice m.title 50) (jsNumber m.lengthSeconds),
           Ev.downloadAttempt url (jsSlice m.title 50) (jsNumber m.lengthSeconds)]
      ∧ attempts (Part000.onText env url)
        = [Ev.streamAttempt url (jsSlice m.title 50) (jsNumber m.lengthSeconds),
           Ev.downloadAttempt url (jsSlice m.title 50) (jsNumber m.lengthSeconds)])
    ∧ (jsLe (jsNumber m.lengthSeconds) 120 = true → env.streamSendOk = true →
      attempts (IndexJs.onText env url)
        = [Ev.streamAttempt url (jsSlice m.title 50) (jsNumber m.lengthSeconds)]
      ∧ attempts (Part000.onText env url)
        = [Ev.streamAttempt url (jsSlice m.title 50) (jsNumber m.lengthSeconds)])
    ∧ (jsLe (jsNumber m.lengthSeconds) 120 = false →
      attempts (IndexJs.onText env url)
        = [Ev.downloadAttempt url (jsSlice m.title 50) (jsNumber m.lengthSeconds)]
      ∧ attempts (Part000.onText env url)
        = [Ev.downloadAttempt url (jsSlice m.title 50) (jsNumber m.lengthSeconds)])
    ∧ (∀ e2 : String,
      IndexJs.onText { env with streamErrMsg := e2 } url = IndexJs.onText env url
      ∧ Part000.onText { env with streamErrMsg := e2 } url = Part000.onText env url) := by
  refine ⟨?_, ?_, ?_, fun e2 =>
    ⟨v0_onText_env_ext env _ url rfl rfl rfl rfl rfl rfl rfl rfl rfl,
     v1_onText_env_ext env _ url rfl rfl rfl rfl rfl rfl rfl rfl rfl⟩⟩
  · intro hshort hsf
    have hsel : select (jsNumber m.lengthSeconds) = Strategy.stream := by
      simp [select, hshort]
    constructor
    · rw [v0_onText_dispatch env url m hv hi]
      simp only [hsel]
      rw [v0_finalize_attempts,
        v0_streamVideo_fail env url (jsSlice m.title 50) (jsNumber m.lengthSeconds)
          (prepState url (IndexJs.prepText (jsSlice m.title 50))) hsf,
        v0_dl_attempts]
      simp [attempts, prepState, Out.emit, isStream, isDl]
    · rw [v1_onText_dispatch env url m hv hi]
      simp only [hsel]
      rw [v1_finalize_attempts,
        v1_streamVideo_fail env url (jsSlice m.title 50) (jsNumber m.lengthSeconds)
          (prepState url (Part000.prepText (jsSlice m.title 50) (jsNumber m.lengthSeconds)))
          (Part000.prepText (jsSlice m.title 50) (jsNumber m.lengthSeconds)) hsf rfl,
        v1_dl_attempts]
      simp [attempts, prepState, Out.emit, isStream, isDl]
  · intro hshort hso
    have hsel : select (jsNumber m.lengthSeconds) = Strategy.stream := by
      simp [select, hshort]
    constructor
    · rw [v0_onText_dispatch env url m hv hi]
      simp only [hsel]
      rw [v0_finalize_attempts,
        v0_streamVideo_ok env url (jsSlice m.title 50) (jsNumber m.lengthSeconds)
          (prepState url (IndexJs.prepText (jsSlice m.title 50)))
          (IndexJs.prepText (jsSlice m.title 50)) hso rfl]
      simp [attempts, prepState, Out.emit, isStream, isDl]
    · rw [v1_onText_dispatch env url m hv hi]
      simp only [hsel]
      rw [v1_finalize_attempts,
        v1_streamVideo_ok env url (jsSlice m.title 50) (jsNumber m.lengthSeconds)
          (prepState url (Part000.prepText (jsSlice m.title 50) (jsNumber m.lengthSeconds)))
          (Part000.prepText (jsSlice m.title 50) (jsNumber m.lengthSeconds)) hso rfl]
      simp [attempts, prepState, Out.emit, isStream, isDl]
  · intro hlong
    have hsel : select (jsNumber m.lengthSeconds) = Strategy.download := by
      simp [select, hlong]
    constructor
    · rw [v0_onText_dispatch env url m hv hi]
      simp only [hsel]
      rw [v0_finalize_attempts, v0_dl_attempts]
      simp [attempts, prepState, Out.emit, isStream, isDl]
    · rw [v1_onText_dispatch env url m hv hi]
      simp only [hsel]
      rw [v1_finalize_attempts, v1_dl_attempts]
      simp [attempts, prepState, Out.emit, isStream, isDl]

/-- Witness for C4 at the short video whose stream send fails. -/
theorem fallback_exactly_one_download_witness :
    (envStreamFail.urlValid = true ∧ envStreamFail.info = some metaShort
      ∧ jsLe (jsNumber metaShort.lengthSeconds) 120 = true
      ∧ envStreamFail.streamSendOk = false)
    ∧ (attempts (IndexJs.onText envStreamFail urlEx)
        = [Ev.streamAttempt urlEx (jsSlice metaShort.title 50) (jsNumber metaShort.lengthSeconds),
           Ev.downloadAttempt urlEx (jsSlice metaShort.title 50) (jsNumber metaShort.lengthSeconds)]
      ∧ attempts (Part000.onText envStreamFail urlEx)
        = [Ev.streamAttempt urlEx (jsSlice metaShort.title 50) (jsNumber metaShort.lengthSeconds),
           Ev.downloadAttempt urlEx (jsSlice metaShort.title 50) (jsNumber metaShort.lengthSeconds)])
    ∧ (IndexJs.onText { envStreamFail with streamErrMsg := "boom" } urlEx
        = IndexJs.onText envStreamFail urlEx
      ∧ Part000.onText { envStreamFail with streamErrMsg := "boom" } urlEx
        = Part000.onText envStreamFail urlEx) :=
  ⟨⟨rfl, rfl, by decide, rfl⟩,
    (fallback_exactly_one_download envStreamFail urlEx metaShort rfl rfl).1 (by decide) rfl,
    (fallback_exactly_one_download envStreamFail urlEx metaShort rfl rfl).2.2.2 ("boom")⟩

/-- Claim C7: every user-visible caption and status text depends on the
resolved title only through its first 50 characters — replacing the title by
its 50-character prefix leaves the entire request outcome unchanged in both
revisions — and that prefix has exactly 50 characters when the title is
longer than 50. -/
theorem title_used_only_to_50 (env : Env) (url : String) (m : Meta)
    (hm : env.info = some m) (hl : 50 < m.title.length) :
    IndexJs.onText { env with info := some { m with title := jsSlice m.title 50 } } url
      = IndexJs.onText env url
    ∧ Part000.onText { env with info := some { m with title := jsSlice m.title 50 } } url
      = Part000.onText env url
    ∧ (jsSlice m.title 50).length = 50 := by
  refine ⟨v0_onText_title_trunc env _ url m hm rfl rfl rfl rfl rfl rfl rfl rfl rfl,
    v1_onText_title_trunc env _ url m hm rfl rfl rfl rfl rfl rfl rfl rfl rfl, ?_⟩
  have hlen : (jsSlice m.title 50).length = (m.title.data.take 50).length := rfl
  have hl2 : 50 < m.title.data.length := hl
  rw [hlen, List.length_take]
  omega

/-- Witness for C7 at the 55-character title. -/
theorem title_used_only_to_50_witness :
    (envLongTitle.info = some metaLongTitle ∧ 50 < metaLongTitle.title.length)
    ∧ (IndexJs.onText
          { envLongTitle with
            info := some { metaLongTitle with title := jsSlice metaLongTitle.title 50 } } urlEx
        = IndexJs.onText envLongTitle urlEx
      ∧ Part000.onText
          { envLongTitle with
            info := some { metaLongTitle with title := jsSlice metaLongTitle.title 50 } } urlEx
        = Part000.onText envLongTitle urlEx
      ∧ (jsSlice metaLongTitle.title 50).length = 50) :=
  ⟨⟨rfl, by decide⟩, title_used_only_to_50 envLongTitle urlEx metaLongTitle rfl (by decide)⟩

/-- Witness for C6 at the concrete message `"not-a-youtube-link"`. -/
theorem invalid_url_no_network_witness :
    envInvalid.urlValid = false
    ∧ (IndexJs.onText envInvalid ("not-a-youtube-link") = Out.init.reply IndexJs.invalidText
      ∧ Part000.onText envInvalid ("not-a-youtube-link") = Out.init.reply Part000.invalidText
      ∧ (IndexJs.onText envInvalid ("not-a-youtube-link")).events = []
      ∧ (Part000.onText envInvalid ("not-a-youtube-link")).events = []
      ∧ (IndexJs.onText envInvalid ("not-a-youtube-link")).replies = [IndexJs.invalidText]
      ∧ (Part000.onText envInvalid ("not-a-youtube-link")).replies = [Part000.invalidText]
      ∧ (IndexJs.onText envInvalid ("not-a-youtube-link")).statusCreated = 0
      ∧ (Part000.onText envInvalid ("not-a-youtube-link")).statusCreated = 0) :=
  ⟨rfl, invalid_url_no_network envInvalid ("not-a-youtube-link") rfl⟩

end YouB
